import Mathlib

/-!
Shallow embedding of the `testsprite_tests` scripts of the rfpagent
repository, and proofs about them.

Each Python test script is modelled as a pure Lean function from the
sequence of external-system HTTP responses it receives (and, where the
script draws fresh uuids, from those uuid strings) to the sequence of HTTP
requests it issues together with its outcome.  A run's outcome is an
`Except PyErr Unit`: `.ok ()` models the script completing without a raised
exception, `.error e` models an exception of kind `e` propagating out of
the test function (Python `assert` failures raise `AssertionError`,
`requests` transport failures raise `RequestException`, and so on).
-/

namespace RfpTests

/-- A JSON value, as produced by `response.json()` in the scripts. -/
inductive JsonVal where
  | jnull
  | jbool (b : Bool)
  | jnum (n : Int)
  | jstr (s : String)
  | jarr (items : List JsonVal)
  | jobj (fields : List (String × JsonVal))

mutual

/-- Structural equality of JSON values (Python `==` on parsed JSON). -/
def JsonVal.beq : JsonVal → JsonVal → Bool
  | .jnull, .jnull => true
  | .jbool a, .jbool b => a == b
  | .jnum a, .jnum b => a == b
  | .jstr a, .jstr b => a == b
  | .jarr xs, .jarr ys => jsonBeqL xs ys
  | .jobj xs, .jobj ys => jsonBeqF xs ys
  | _, _ => false

/-- Elementwise equality of JSON value lists. -/
def jsonBeqL : List JsonVal → List JsonVal → Bool
  | [], [] => true
  | x :: xs, y :: ys => JsonVal.beq x y && jsonBeqL xs ys
  | _, _ => false

/-- Elementwise equality of JSON object field lists. -/
def jsonBeqF : List (String × JsonVal) → List (String × JsonVal) → Bool
  | [], [] => true
  | (k, v) :: xs, (l, w) :: ys => k == l && JsonVal.beq v w && jsonBeqF xs ys
  | _, _ => false

end

mutual

theorem jsonBeq_iff : ∀ (a b : JsonVal), JsonVal.beq a b = true ↔ a = b
  | .jnull, .jnull => by simp [JsonVal.beq]
  | .jbool a, .jbool b => by simp [JsonVal.beq]
  | .jnum a, .jnum b => by simp [JsonVal.beq]
  | .jstr a, .jstr b => by simp [JsonVal.beq, beq_iff_eq]
  | .jarr xs, .jarr ys => by
      simp only [JsonVal.beq, jsonBeqL_iff xs ys, JsonVal.jarr.injEq]
  | .jobj xs, .jobj ys => by
      simp only [JsonVal.beq, jsonBeqF_iff xs ys, JsonVal.jobj.injEq]
  | .jnull, .jbool _ | .jnull, .jnum _ | .jnull, .jstr _ | .jnull, .jarr _ | .jnull, .jobj _
  | .jbool _, .jnull | .jbool _, .jnum _ | .jbool _, .jstr _ | .jbool _, .jarr _ | .jbool _, .jobj _
  | .jnum _, .jnull | .jnum _, .jbool _ | .jnum _, .jstr _ | .jnum _, .jarr _ | .jnum _, .jobj _
  | .jstr _, .jnull | .jstr _, .jbool _ | .jstr _, .jnum _ | .jstr _, .jarr _ | .jstr _, .jobj _
  | .jarr _, .jnull | .jarr _, .jbool _ | .jarr _, .jnum _ | .jarr _, .jstr _ | .jarr _, .jobj _
  | .jobj _, .jnull | .jobj _, .jbool _ | .jobj _, .jnum _ | .jobj _, .jstr _ | .jobj _, .jarr _ => by
      simp [JsonVal.beq]

theorem jsonBeqL_iff : ∀ (xs ys : List JsonVal), jsonBeqL xs ys = true ↔ xs = ys
  | [], [] => by simp [jsonBeqL]
  | x :: xs, y :: ys => by
      simp [jsonBeqL, jsonBeq_iff x y, jsonBeqL_iff xs ys]
  | [], _ :: _ => by simp [jsonBeqL]
  | _ :: _, [] => by simp [jsonBeqL]

theorem jsonBeqF_iff : ∀ (xs ys : List (String × JsonVal)), jsonBeqF xs ys = true ↔ xs = ys
  | [], [] => by simp [jsonBeqF]
  | (k, v) :: xs, (l, w) :: ys => by
      simp [jsonBeqF, jsonBeq_iff v w, jsonBeqF_iff xs ys, beq_iff_eq, and_assoc]
  | [], _ :: _ => by simp [jsonBeqF]
  | _ :: _, [] => by simp [jsonBeqF]

end

instance : DecidableEq JsonVal := fun a b =>
  decidable_of_iff (JsonVal.beq a b = true) (jsonBeq_iff a b)

instance : BEq JsonVal := ⟨JsonVal.beq⟩

/-- Python truthiness of a JSON value (`None`, `False`, `0`, `""`, `[]`,
`{}` are falsy, everything else truthy). -/
def pyTruthy : JsonVal → Bool
  | .jnull => false
  | .jbool b => b
  | .jnum n => n != 0
  | .jstr s => !s.isEmpty
  | .jarr xs => !xs.isEmpty
  | .jobj fs => !fs.isEmpty

/-- Dictionary lookup: the value of the first field named `k`, if any
(models `d[k]` / `d.get(k)` on a JSON object). -/
def jobjGet (fs : List (String × JsonVal)) (k : String) : Option JsonVal :=
  (fs.find? (fun p => p.1 == k)).map (·.2)

/-- `d.get(k)` on a JSON object, with Python `None` for a missing key. -/
def jobjGetD (fs : List (String × JsonVal)) (k : String) : JsonVal :=
  (jobjGet fs k).getD .jnull

/-- An HTTP response as the scripts observe it: a status code and a body
(`none` models a body that is not valid JSON, so that `response.json()`
raises `ValueError`). -/
structure HttpResponse where
  status : Nat
  body : Option JsonVal
  deriving DecidableEq

/-- The result of issuing one HTTP request: `none` models the transport
itself raising `requests.RequestException` (connection refused, timeout),
`some r` a delivered response. -/
abbrev HttpResult := Option HttpResponse

/-- An HTTP request issued by a script. -/
structure Request where
  method : String
  url : String
  params : List (String × String)
  body : Option JsonVal
  deriving DecidableEq

/-- The kinds of exception that can propagate out of a script run. -/
inductive PyErr where
  | requestErr                 -- requests.RequestException from the transport
  | httpErr (status : Nat)     -- requests.HTTPError from raise_for_status
  | assertionErr (msg : String)
  | valueErr                   -- response.json() on a non-JSON body
  | attributeErr               -- .get(...) called on a non-dict value
  | typeErr                    -- unsupported operand (e.g. `in` on an int)
  | playwrightErr              -- playwright transport / browser error
  deriving DecidableEq

/-- The base URL used by every script. -/
def BASE_URL : String := "http://localhost:5173"

mutual

/-- Python `str(v)` of a JSON value, as used by f-string interpolation of a
captured value into a URL.  Container elements are rendered with
`repr`-style quoting for strings. -/
def pyStr : JsonVal → String
  | .jnull => "None"
  | .jbool true => "True"
  | .jbool false => "False"
  | .jnum n => toString n
  | .jstr s => s
  | .jarr xs => "[" ++ pyStrList xs ++ "]"
  | .jobj fs => "\x7b" ++ pyStrFields fs ++ "\x7d"

def pyRepr : JsonVal → String
  | .jstr s => "\x27" ++ s ++ "\x27"
  | v => pyStr v

def pyStrList : List JsonVal → String
  | [] => ""
  | [x] => pyRepr x
  | x :: y :: rest => pyRepr x ++ ", " ++ pyStrList (y :: rest)

def pyStrFields : List (String × JsonVal) → String
  | [] => ""
  | [(k, v)] => "\x27" ++ k ++ "\x27: " ++ pyRepr v
  | (k, v) :: p :: rest => "\x27" ++ k ++ "\x27: " ++ pyRepr v ++ ", " ++ pyStrFields (p :: rest)

end

/-- Whether the character list `pat` is an initial segment of `l`. -/
def charPrefixOf : List Char → List Char → Bool
  | [], _ => true
  | _ :: _, [] => false
  | a :: as, b :: bs => a == b && charPrefixOf as bs

/-- Whether `pat` occurs as a contiguous run inside `l` (Python
`pat in s` on strings). -/
def charSub (pat : List Char) : List Char → Bool
  | [] => pat.isEmpty
  | c :: rest => charPrefixOf pat (c :: rest) || charSub pat rest

/-- Python `pat in s` for strings. -/
def pyInStr (pat s : String) : Bool :=
  charSub pat.data s.data

/-- Python `k in v` (membership test), which raises `TypeError` on values
that support no `in` operator. -/
def pyIn (k : String) : JsonVal → Except PyErr Bool
  | .jobj fs => .ok ((jobjGet fs k).isSome)
  | .jarr xs => .ok (xs.contains (.jstr k))
  | .jstr s => .ok (pyInStr k s)
  | _ => .error .typeErr

/-- Python `v.get(k)`: `AttributeError` unless `v` is a dict, Python `None`
for a missing key. -/
def pyGet (v : JsonVal) (k : String) : Except PyErr JsonVal :=
  match v with
  | .jobj fs => .ok (jobjGetD fs k)
  | _ => .error .attributeErr

instance : LawfulBEq JsonVal where
  eq_of_beq h := (jsonBeq_iff _ _).mp h
  rfl := (jsonBeq_iff _ _).mpr rfl

instance {ε α : Type} [DecidableEq ε] [DecidableEq α] : DecidableEq (Except ε α) :=
  fun a b =>
    match a, b with
    | .ok x, .ok y =>
      if h : x = y then .isTrue (by rw [h]) else .isFalse (fun hc => h (Except.ok.inj hc))
    | .error x, .error y =>
      if h : x = y then .isTrue (by rw [h]) else .isFalse (fun hc => h (Except.error.inj hc))
    | .ok _, .error _ => .isFalse (fun hc => Except.noConfusion hc)
    | .error _, .ok _ => .isFalse (fun hc => Except.noConfusion hc)

/-! ### TC001_get_all_rfps_with_pagination_and_filtering -/

/-- The single request issued by TC001: a GET of `/api/rfps` with `status`
and `portalId` filter parameters and no `page`/`limit` parameters. -/
def tc001Request : Request :=
  { method := "GET", url := BASE_URL ++ "/api/rfps",
    params := [("status", "active"), ("portalId", "portal-123")], body := none }

/-- The assertions of one iteration of the `for rfp in data` loop of
`test_get_all_rfps_with_pagination_and_filtering`: the entry is a dict, has
a `status` field equal to the requested status, and has a `portalId` field
equal to the requested portal id. -/
def checkRfpItem : JsonVal → Except PyErr Unit
  | .jobj fs =>
    match jobjGet fs "status" with
    | none => .error (.assertionErr "RFP entry missing status field")
    | some sv =>
      if sv = .jstr "active" then
        match jobjGet fs "portalId" with
        | none => .error (.assertionErr "RFP entry missing portalId field")
        | some pv =>
          if pv = .jstr "portal-123" then .ok ()
          else .error (.assertionErr "RFP portalId mismatch")
      else .error (.assertionErr "RFP status mismatch")
  | _ => .error (.assertionErr "RFP entry is not a dictionary")

/-- The whole `for rfp in data` loop, stopping at the first failing
assertion. -/
def checkRfpItems : List JsonVal → Except PyErr Unit
  | [] => .ok ()
  | v :: rest =>
    match checkRfpItem v with
    | .ok _ => checkRfpItems rest
    | .error e => .error e

/-- Embedding of `test_get_all_rfps_with_pagination_and_filtering`
(TC001): issue the filtered GET, turn a transport error or a 4xx/5xx
status into a failed assertion, then require status 200, a JSON list body
of at most 20 entries, and per-entry filter conformance. -/
def test_get_all_rfps_with_pagination_and_filtering (resp : HttpResult) :
    List Request × Except PyErr Unit :=
  ([tc001Request],
   match resp with
   | none => .error (.assertionErr "Request failed")
   | some r =>
     if 400 ≤ r.status then .error (.assertionErr "Request failed")
     else if r.status = 200 then
       match r.body with
       | none => .error (.assertionErr "Response is not valid JSON")
       | some (.jarr items) =>
         if items.length ≤ 20 then checkRfpItems items
         else .error (.assertionErr "More than default limit RFPs returned")
       | some _ => .error (.assertionErr "Response JSON is not a list")
     else .error (.assertionErr "Unexpected status code"))

/-- Spec-side reading of the per-item filter requirement: the entry is an
object whose `status` field is the requested status and whose `portalId`
field is the requested portal id. -/
def RfpMatchesFilters (v : JsonVal) : Prop :=
  ∃ fs, v = .jobj fs ∧ jobjGet fs "status" = some (.jstr "active") ∧
    jobjGet fs "portalId" = some (.jstr "portal-123")

theorem checkRfpItem_ok_iff (v : JsonVal) :
    checkRfpItem v = Except.ok () ↔ RfpMatchesFilters v := by
  unfold RfpMatchesFilters
  cases v with
  | jobj fs =>
    simp only [checkRfpItem, JsonVal.jobj.injEq, exists_eq_left']
    rcases hs : jobjGet fs "status" with _ | sv
    · simp
    · by_cases hsv : sv = .jstr "active"
      · subst hsv
        simp only [if_pos rfl]
        rcases hp : jobjGet fs "portalId" with _ | pv
        · simp
        · by_cases hpv : pv = .jstr "portal-123"
          · subst hpv; simp
          · simp [hpv]
      · simp [hsv]
  | jnull => simp [checkRfpItem]
  | jbool b => simp [checkRfpItem]
  | jnum n => simp [checkRfpItem]
  | jstr s => simp [checkRfpItem]
  | jarr xs => simp [checkRfpItem]

theorem checkRfpItems_ok_iff (items : List JsonVal) :
    checkRfpItems items = Except.ok () ↔ ∀ v ∈ items, RfpMatchesFilters v := by
  induction items with
  | nil => simp [checkRfpItems]
  | cons x xs ih =>
    simp only [checkRfpItems, List.forall_mem_cons]
    rcases hx : checkRfpItem x with e | u
    · constructor
      · intro h; cases h
      · rintro ⟨h1, -⟩
        rw [(checkRfpItem_ok_iff x).mpr h1] at hx
        simp at hx
    · cases u
      have h1 : RfpMatchesFilters x := (checkRfpItem_ok_iff x).mp hx
      rw [ih]
      exact ⟨fun h => ⟨h1, h⟩, fun h => h.2⟩

/-- C4: the TC001 listing scenario yields overall Passed exactly when the
response has status 200, its body is a JSON list of at most the default
page-size limit of 20 items, and every item is an object whose `status`
and `portalId` fields equal the requested filter values; any other
response (including more than 20 items or a filter-violating item) yields
Failed. -/
theorem tc001_overall_passed_iff (resp : HttpResult) :
    (test_get_all_rfps_with_pagination_and_filtering resp).2 = Except.ok () ↔
      ∃ r items, resp = some r ∧ r.status = 200 ∧ r.body = some (.jarr items) ∧
        items.length ≤ 20 ∧ ∀ v ∈ items, RfpMatchesFilters v := by
  cases resp with
  | none => simp [test_get_all_rfps_with_pagination_and_filtering]
  | some r =>
    obtain ⟨s, b⟩ := r
    by_cases h4 : 400 ≤ s
    · have hne : s ≠ 200 := by omega
      simp [test_get_all_rfps_with_pagination_and_filtering, h4, hne]
    · by_cases h2 : s = 200
      · subst h2
        cases b with
        | none => simp [test_get_all_rfps_with_pagination_and_filtering, h4]
        | some data =>
          cases data with
          | jarr items =>
            by_cases hlen : items.length ≤ 20
            · simp [test_get_all_rfps_with_pagination_and_filtering, h4, hlen,
                checkRfpItems_ok_iff]
            · simp [test_get_all_rfps_with_pagination_and_filtering, h4, hlen]
          | jnull => simp [test_get_all_rfps_with_pagination_and_filtering, h4]
          | jbool x => simp [test_get_all_rfps_with_pagination_and_filtering, h4]
          | jnum x => simp [test_get_all_rfps_with_pagination_and_filtering, h4]
          | jstr x => simp [test_get_all_rfps_with_pagination_and_filtering, h4]
          | jobj x => simp [test_get_all_rfps_with_pagination_and_filtering, h4]
      · simp [test_get_all_rfps_with_pagination_and_filtering, h4, h2]

/-! ### TC010_health_check_endpoint_returns_system_healthy -/

/-- The value of `data.get("message") or data.get("status") or ""` in
`test_health_check_endpoint_returns_system_healthy`: the `message` field
when it is truthy, otherwise the `status` field when it is truthy,
otherwise the empty string.  A missing field yields Python `None`
(`JsonVal.jnull`), which is falsy, so the `or` chain falls through it. -/
def effectiveHealthMessage (fs : List (String × JsonVal)) : JsonVal :=
  let m := jobjGetD fs "message"
  if pyTruthy m then m
  else
    let s := jobjGetD fs "status"
    if pyTruthy s then s else .jstr ""

/-- The `healthy_indicators` list of TC010. -/
def healthyIndicators : List String := ["healthy", "ok", "up", "running"]

/-- Python `s.lower()` (ASCII case folding, characterwise). -/
def strLower (s : String) : String :=
  String.mk (s.data.map Char.toLower)

/-- Embedding of `test_health_check_endpoint_returns_system_healthy`
(TC010): GET `/api/health`; transport errors and 4xx/5xx statuses become a
failed assertion; then require status 200, a JSON body, and an effective
message that is a string whose lowercasing contains one of the
`healthy_indicators` substrings. -/
def test_health_check_endpoint_returns_system_healthy (resp : HttpResult) :
    List Request × Except PyErr Unit :=
  ([{ method := "GET", url := BASE_URL ++ "/api/health", params := [], body := none }],
   match resp with
   | none => .error (.assertionErr "Request to health check endpoint failed")
   | some r =>
     if 400 ≤ r.status then .error (.assertionErr "Request to health check endpoint failed")
     else if r.status = 200 then
       match r.body with
       | none => .error (.assertionErr "Response is not valid JSON")
       | some (.jobj fs) =>
         match effectiveHealthMessage fs with
         | .jstr s =>
           if healthyIndicators.any (fun ind => pyInStr ind (strLower s)) then .ok ()
           else .error (.assertionErr "Health message does not indicate healthy system")
         | _ => .error (.assertionErr "Response message or status field is not a string")
       | some _ => .error .attributeErr
     else .error (.assertionErr "Expected status code 200"))

/-- C9: health-check acceptance is substring-lenient.  Given a 200 JSON
response, TC010 passes exactly when the body is an object whose effective
message (`message` field, else `status` field when `message` is absent or
falsy, else the empty string) is a string containing, case-insensitively,
one of the substrings "healthy", "ok", "up", "running".  In particular a
message "backup failing" passes (it contains "up") and an empty body
fails. -/
theorem tc010_acceptance_substring_lenient :
    (∀ data : JsonVal,
      (test_health_check_endpoint_returns_system_healthy
          (some { status := 200, body := some data })).2 = Except.ok () ↔
        ∃ fs s, data = .jobj fs ∧ effectiveHealthMessage fs = .jstr s ∧
          (pyInStr "healthy" (strLower s) = true ∨ pyInStr "ok" (strLower s) = true ∨
           pyInStr "up" (strLower s) = true ∨ pyInStr "running" (strLower s) = true))
    ∧ (test_health_check_endpoint_returns_system_healthy
        (some { status := 200,
                body := some (.jobj [("message", .jstr "backup failing")]) })).2
        = Except.ok ()
    ∧ (test_health_check_endpoint_returns_system_healthy
        (some { status := 200, body := some (.jobj []) })).2
        ≠ Except.ok () := by
  refine ⟨fun data => ?_, by decide, by decide⟩
  cases data with
  | jobj fs =>
    rcases hm : effectiveHealthMessage fs with _ | mb | mn | s | ma | mf <;>
      simp [test_health_check_endpoint_returns_system_healthy, hm, healthyIndicators]
    cases h1 : pyInStr "healthy" (strLower s) <;>
      cases h2 : pyInStr "ok" (strLower s) <;>
        cases h3 : pyInStr "up" (strLower s) <;>
          cases h4 : pyInStr "running" (strLower s) <;>
            simp [h1, h2, h3, h4]
  | jnull => simp [test_health_check_endpoint_returns_system_healthy]
  | jbool b => simp [test_health_check_endpoint_returns_system_healthy]
  | jnum n => simp [test_health_check_endpoint_returns_system_healthy]
  | jstr s => simp [test_health_check_endpoint_returns_system_healthy]
  | jarr xs => simp [test_health_check_endpoint_returns_system_healthy]

/-! ### TC003_get_specific_rfp_by_id -/

/-- Outcome status of one step of a scenario run. -/
inductive StepStatus where
  | passed
  | failed
  | skipped
  deriving DecidableEq

/-- A whole scenario run: the requests issued, the per-step outcome
statuses, and the run's result (`.ok ()` when the script finishes without
a raised exception, `.error e` when exception `e` propagates out). -/
structure ScriptRun where
  trace : List Request
  statuses : List StepStatus
  result : Except PyErr Unit
  deriving DecidableEq

/-- Embedding of `create_rfp` of TC003: POST a payload built from two
fresh uuids to `/api/rfps`, `raise_for_status`, assert status 201, parse
the body, assert `"id" in created`, and return `created["id"]`. -/
def create_rfp (u1 u2 : String) (resp : HttpResult) : Request × Except PyErr JsonVal :=
  ({ method := "POST", url := BASE_URL ++ "/api/rfps", params := [],
     body := some (.jobj [("rfpId", .jstr u1), ("title", .jstr ("Test RFP " ++ u2))]) },
   match resp with
   | none => .error .requestErr
   | some r =>
     if 400 ≤ r.status then .error (.httpErr r.status)
     else if r.status = 201 then
       match r.body with
       | none => .error .valueErr
       | some created =>
         match pyIn "id" created with
         | .error e => .error e
         | .ok false => .error (.assertionErr "id not in created")
         | .ok true =>
           match created with
           | .jobj fs => .ok (jobjGetD fs "id")
           | _ => .error .typeErr
     else .error (.assertionErr "status is not 201"))

/-- The second step of TC003: GET `/api/rfps/{rfp_id}` with the captured
id interpolated into the URL, assert status 200, a dict body, and an `id`
field equal to the captured id. -/
def getById (rfpId : JsonVal) (getResp : HttpResult) : Request × Except PyErr Unit :=
  ({ method := "GET", url := BASE_URL ++ "/api/rfps/" ++ pyStr rfpId,
     params := [], body := none },
   match getResp with
   | none => .error .requestErr
   | some g =>
     if g.status = 200 then
       match g.body with
       | none => .error .valueErr
       | some (.jobj fs) =>
         if jobjGetD fs "id" = rfpId then .ok ()
         else .error (.assertionErr "id mismatch")
       | some _ => .error (.assertionErr "rfp details is not a dict")
     else .error (.assertionErr "get status is not 200"))

/-- The third step of TC003: GET `/api/rfps/nonexistent-{uuid}` with a
fresh uuid, assert status 404. -/
def getNonexistent (u3 : String) (notFoundResp : HttpResult) : Request × Except PyErr Unit :=
  ({ method := "GET", url := BASE_URL ++ "/api/rfps/nonexistent-" ++ u3,
     params := [], body := none },
   match notFoundResp with
   | none => .error .requestErr
   | some nf =>
     if nf.status = 404 then .ok ()
     else .error (.assertionErr "status is not 404"))

/-- Embedding of `test_get_specific_rfp_by_id` (TC003): run `create_rfp`,
then the GET-by-captured-id step, then the GET-of-a-nonexistent-id step;
the first raised exception ends the run (the `finally` block's
`delete_rfp` is a `pass`, so it issues no request and swallows nothing). -/
def test_get_specific_rfp_by_id (u1 u2 u3 : String)
    (postResp getResp notFoundResp : HttpResult) : ScriptRun :=
  let postReq := (create_rfp u1 u2 postResp).1
  match (create_rfp u1 u2 postResp).2 with
  | .error e =>
    { trace := [postReq], statuses := [.failed, .skipped, .skipped], result := .error e }
  | .ok rfpId =>
    let getReq := (getById rfpId getResp).1
    match (getById rfpId getResp).2 with
    | .error e =>
      { trace := [postReq, getReq], statuses := [.passed, .failed, .skipped],
        result := .error e }
    | .ok _ =>
      let nfReq := (getNonexistent u3 notFoundResp).1
      match (getNonexistent u3 notFoundResp).2 with
      | .error e =>
        { trace := [postReq, getReq, nfReq], statuses := [.passed, .passed, .failed],
          result := .error e }
      | .ok _ =>
        { trace := [postReq, getReq, nfReq], statuses := [.passed, .passed, .passed],
          result := .ok () }

/-- C1: determinism.  Two runs of the same scenario that receive the same
sequence of external-system HTTP responses produce the same sequence of
step outcome statuses and the same result, even though TC003 embeds fresh
uuid values in its requests: the statuses and result of
`test_get_specific_rfp_by_id` (and of `create_rfp`) do not depend on the
uuid inputs, and the outcome of
`test_health_check_endpoint_returns_system_healthy` is a function of the
response's status code and body alone. -/
theorem tc003_outcome_statuses_uuid_independent :
    (∀ (postResp getResp notFoundResp : HttpResult) (u1 u2 u3 v1 v2 v3 : String),
      (test_get_specific_rfp_by_id u1 u2 u3 postResp getResp notFoundResp).statuses =
        (test_get_specific_rfp_by_id v1 v2 v3 postResp getResp notFoundResp).statuses ∧
      (test_get_specific_rfp_by_id u1 u2 u3 postResp getResp notFoundResp).result =
        (test_get_specific_rfp_by_id v1 v2 v3 postResp getResp notFoundResp).result)
    ∧ (∀ (u1 u2 v1 v2 : String) (resp : HttpResult),
      (create_rfp u1 u2 resp).2 = (create_rfp v1 v2 resp).2)
    ∧ (∀ r₁ r₂ : HttpResponse, r₁.status = r₂.status → r₁.body = r₂.body →
      (test_health_check_endpoint_returns_system_healthy (some r₁)).2 =
        (test_health_check_endpoint_returns_system_healthy (some r₂)).2) := by
  refine ⟨?_, fun u1 u2 v1 v2 resp => rfl, ?_⟩
  · intro pResp gResp nResp u1 u2 u3 v1 v2 v3
    have hc : (create_rfp v1 v2 pResp).2 = (create_rfp u1 u2 pResp).2 := rfl
    simp only [test_get_specific_rfp_by_id, hc]
    rcases (create_rfp u1 u2 pResp).2 with e | rfpId
    · exact ⟨rfl, rfl⟩
    · dsimp only
      rcases (getById rfpId gResp).2 with e | u
      · exact ⟨rfl, rfl⟩
      · dsimp only
        have hn : (getNonexistent v3 nResp).2 = (getNonexistent u3 nResp).2 := rfl
        rw [hn]
        rcases (getNonexistent u3 nResp).2 with e | w
        · exact ⟨rfl, rfl⟩
        · exact ⟨rfl, rfl⟩
  · intro r₁ r₂ hs hb
    obtain ⟨s₁, b₁⟩ := r₁
    obtain ⟨s₂, b₂⟩ := r₂
    cases hs; cases hb; rfl

/-- Witness for `tc003_outcome_statuses_uuid_independent` at concrete
inputs. -/
theorem tc003_outcome_statuses_uuid_independent_witness :
    (test_get_specific_rfp_by_id "u1" "u2" "u3" (some { status := 500, body := none })
        none none).statuses =
      (test_get_specific_rfp_by_id "v1" "v2" "v3" (some { status := 500, body := none })
        none none).statuses ∧
    (test_health_check_endpoint_returns_system_healthy
        (some { status := 200, body := none })).2 =
      (test_health_check_endpoint_returns_system_healthy
        (some { status := 200, body := none })).2 :=
  ⟨(tc003_outcome_statuses_uuid_independent.1 (some { status := 500, body := none })
      none none "u1" "u2" "u3" "v1" "v2" "v3").1,
   tc003_outcome_statuses_uuid_independent.2.2 { status := 200, body := none }
      { status := 200, body := none } rfl rfl⟩

theorem create_rfp_ok_iff (u1 u2 : String) (resp : HttpResult) (v : JsonVal) :
    (create_rfp u1 u2 resp).2 = .ok v ↔
      ∃ r fs, resp = some r ∧ r.status = 201 ∧ r.body = some (.jobj fs) ∧
        (jobjGet fs "id").isSome = true ∧ jobjGetD fs "id" = v := by
  cases resp with
  | none => simp [create_rfp]
  | some r =>
    obtain ⟨s, b⟩ := r
    by_cases h4 : 400 ≤ s
    · have hne : s ≠ 201 := by omega
      simp [create_rfp, h4, hne]
    · by_cases h2 : s = 201
      · subst h2
        cases b with
        | none => simp [create_rfp, h4]
        | some created =>
          cases created with
          | jobj fs =>
            cases hid : (jobjGet fs "id").isSome <;>
              simp [create_rfp, h4, pyIn, hid]
          | jnull => simp [create_rfp, h4, pyIn]
          | jbool x => simp [create_rfp, h4, pyIn]
          | jnum x => simp [create_rfp, h4, pyIn]
          | jstr x =>
            cases hin : pyInStr "id" x <;>
              simp [create_rfp, h4, pyIn, hin]
          | jarr xs =>
            simp [create_rfp, h4, pyIn]
            split <;> simp
      · simp [create_rfp, h4, h2]

theorem getById_ok_iff (rfpId : JsonVal) (resp : HttpResult) :
    (getById rfpId resp).2 = .ok () ↔
      ∃ g fs, resp = some g ∧ g.status = 200 ∧ g.body = some (.jobj fs) ∧
        jobjGetD fs "id" = rfpId := by
  cases resp with
  | none => simp [getById]
  | some g =>
    obtain ⟨s, b⟩ := g
    by_cases h2 : s = 200
    · subst h2
      cases b with
      | none => simp [getById]
      | some details =>
        cases details with
        | jobj fs =>
          by_cases hid : jobjGetD fs "id" = rfpId <;> simp [getById, hid]
        | jnull => simp [getById]
        | jbool x => simp [getById]
        | jnum x => simp [getById]
        | jstr x => simp [getById]
        | jarr xs => simp [getById]
    · simp [getById, h2]

/-- C3: in the create-then-get scenario of TC003, a passing run requires
the POST to `/api/rfps` to return 201 with an `id` field and the GET to
return 200 with a body whose `id` equals the captured one; the captured id
is interpolated verbatim into the URL of the second request; and when the
POST returns a non-201 status no further request is issued, the GET and
404 steps are skipped, and the overall outcome is a raised error
(Failed). -/
theorem tc003_create_then_get_contract :
    (∀ (u1 u2 u3 : String) (postResp getResp notFoundResp : HttpResult),
      (test_get_specific_rfp_by_id u1 u2 u3 postResp getResp notFoundResp).result =
          .ok () →
        ∃ r fs g gfs, postResp = some r ∧ r.status = 201 ∧
          r.body = some (.jobj fs) ∧ (jobjGet fs "id").isSome = true ∧
          getResp = some g ∧ g.status = 200 ∧ g.body = some (.jobj gfs) ∧
          jobjGetD gfs "id" = jobjGetD fs "id")
    ∧ (∀ (u1 u2 u3 : String) (postResp getResp notFoundResp : HttpResult) (v : JsonVal),
      (create_rfp u1 u2 postResp).2 = .ok v →
        (test_get_specific_rfp_by_id u1 u2 u3 postResp getResp notFoundResp).trace.get? 1 =
          some { method := "GET", url := BASE_URL ++ "/api/rfps/" ++ pyStr v,
                 params := [], body := none })
    ∧ (∀ (u1 u2 u3 : String) (r : HttpResponse) (getResp notFoundResp : HttpResult),
      r.status ≠ 201 →
        (test_get_specific_rfp_by_id u1 u2 u3 (some r) getResp notFoundResp).trace =
            [(create_rfp u1 u2 (some r)).1] ∧
        (test_get_specific_rfp_by_id u1 u2 u3 (some r) getResp notFoundResp).statuses =
            [.failed, .skipped, .skipped] ∧
        ∃ e, (test_get_specific_rfp_by_id u1 u2 u3 (some r) getResp notFoundResp).result =
            .error e) := by
  refine ⟨?_, ?_, ?_⟩
  · intro u1 u2 u3 postResp getResp notFoundResp h
    rw [test_get_specific_rfp_by_id] at h
    rcases hcr : (create_rfp u1 u2 postResp).2 with e | v
    · rw [hcr] at h; cases h
    · rw [hcr] at h
      dsimp only at h
      rcases hg : (getById v getResp).2 with e | u
      · rw [hg] at h; cases h
      · obtain ⟨r, fs, hpr, hps, hpb, hpid, hv⟩ := (create_rfp_ok_iff u1 u2 postResp v).mp hcr
        obtain ⟨g, gfs, hgr, hgs, hgb, hgid⟩ := (getById_ok_iff v getResp).mp hg
        exact ⟨r, fs, g, gfs, hpr, hps, hpb, hpid, hgr, hgs, hgb, hv ▸ hgid⟩
  · intro u1 u2 u3 postResp getResp notFoundResp v hcr
    rw [test_get_specific_rfp_by_id, hcr]
    dsimp only
    rcases (getById v getResp).2 with e | u
    · rfl
    · dsimp only
      rcases (getNonexistent u3 notFoundResp).2 with e | w
      · rfl
      · rfl
  · intro u1 u2 u3 r getResp notFoundResp hne
    have hcr : ∃ e, (create_rfp u1 u2 (some r)).2 = .error e := by
      rw [create_rfp]
      by_cases h4 : 400 ≤ r.status
      · exact ⟨.httpErr r.status, by simp [h4]⟩
      · exact ⟨.assertionErr "status is not 201", by simp [h4, hne]⟩
    obtain ⟨e, he⟩ := hcr
    rw [test_get_specific_rfp_by_id, he]
    exact ⟨rfl, rfl, e, rfl⟩

/-- Witness for `tc003_create_then_get_contract` at concrete inputs: a
passing create-then-get run, the captured id appearing in the second URL,
and a POST rejected with status 500 short-circuiting the scenario. -/
theorem tc003_create_then_get_contract_witness :
    (∃ r fs g gfs,
      (some { status := 201, body := some (.jobj [("id", .jstr "x1")]) } : HttpResult)
          = some r ∧
      r.status = 201 ∧ r.body = some (.jobj fs) ∧ (jobjGet fs "id").isSome = true ∧
      (some { status := 200, body := some (.jobj [("id", .jstr "x1")]) } : HttpResult)
          = some g ∧
      g.status = 200 ∧ g.body = some (.jobj gfs) ∧
      jobjGetD gfs "id" = jobjGetD fs "id")
    ∧ (test_get_specific_rfp_by_id "a" "b" "c"
        (some { status := 201, body := some (.jobj [("id", .jstr "x1")]) })
        (some { status := 200, body := some (.jobj [("id", .jstr "x1")]) })
        (some { status := 404, body := none })).trace.get? 1 =
        some { method := "GET", url := BASE_URL ++ "/api/rfps/" ++ pyStr (.jstr "x1"),
               params := [], body := none }
    ∧ (test_get_specific_rfp_by_id "a" "b" "c"
        (some { status := 500, body := none }) none none).statuses =
        [.failed, .skipped, .skipped] :=
  ⟨tc003_create_then_get_contract.1 "a" "b" "c"
      (some { status := 201, body := some (.jobj [("id", .jstr "x1")]) })
      (some { status := 200, body := some (.jobj [("id", .jstr "x1")]) })
      (some { status := 404, body := none }) rfl,
   tc003_create_then_get_contract.2.1 "a" "b" "c"
      (some { status := 201, body := some (.jobj [("id", .jstr "x1")]) })
      (some { status := 200, body := some (.jobj [("id", .jstr "x1")]) })
      (some { status := 404, body := none }) (.jstr "x1") rfl,
   (tc003_create_then_get_contract.2.2 "a" "b" "c" { status := 500, body := none }
      none none (by decide)).2.1⟩

/-- C5: with the first two steps of TC003 succeeding, the
non-existent-identifier step passes exactly when the response status is
404, and fails for any other status (including 200 and 500). -/
theorem tc003_nonexistent_id_step_passes_iff_404
    (u1 u2 u3 : String) (pResp gResp : HttpResult) (v : JsonVal)
    (h1 : (create_rfp u1 u2 pResp).2 = .ok v)
    (h2 : (getById v gResp).2 = .ok ())
    (nf : HttpResponse) :
    ((test_get_specific_rfp_by_id u1 u2 u3 pResp gResp (some nf)).result = .ok () ↔
      nf.status = 404)
    ∧ (test_get_specific_rfp_by_id u1 u2 u3 pResp gResp (some nf)).statuses =
        [.passed, .passed, if nf.status = 404 then .passed else .failed] := by
  rw [test_get_specific_rfp_by_id, h1]
  dsimp only
  rw [h2]
  dsimp only [getNonexistent]
  by_cases h404 : nf.status = 404
  · simp [h404]
  · simp [h404]

/-- Witness for `tc003_nonexistent_id_step_passes_iff_404` at concrete
inputs, exercising the 404 (pass), 200 (fail) and 500 (fail) cases. -/
theorem tc003_nonexistent_id_step_passes_iff_404_witness :
    (((test_get_specific_rfp_by_id "a" "b" "c"
        (some { status := 201, body := some (.jobj [("id", .jstr "x2")]) })
        (some { status := 200, body := some (.jobj [("id", .jstr "x2")]) })
        (some { status := 404, body := none })).result = .ok () ↔ (404 : Nat) = 404)
      ∧ (test_get_specific_rfp_by_id "a" "b" "c"
          (some { status := 201, body := some (.jobj [("id", .jstr "x2")]) })
          (some { status := 200, body := some (.jobj [("id", .jstr "x2")]) })
          (some { status := 404, body := none })).statuses =
          [.passed, .passed, if (404 : Nat) = 404 then .passed else .failed])
    ∧ (((test_get_specific_rfp_by_id "a" "b" "c"
        (some { status := 201, body := some (.jobj [("id", .jstr "x2")]) })
        (some { status := 200, body := some (.jobj [("id", .jstr "x2")]) })
        (some { status := 200, body := none })).result = .ok () ↔ (200 : Nat) = 404)
      ∧ (test_get_specific_rfp_by_id "a" "b" "c"
          (some { status := 201, body := some (.jobj [("id", .jstr "x2")]) })
          (some { status := 200, body := some (.jobj [("id", .jstr "x2")]) })
          (some { status := 200, body := none })).statuses =
          [.passed, .passed, if (200 : Nat) = 404 then .passed else .failed])
    ∧ (((test_get_specific_rfp_by_id "a" "b" "c"
        (some { status := 201, body := some (.jobj [("id", .jstr "x2")]) })
        (some { status := 200, body := some (.jobj [("id", .jstr "x2")]) })
        (some { status := 500, body := none })).result = .ok () ↔ (500 : Nat) = 404)
      ∧ (test_get_specific_rfp_by_id "a" "b" "c"
          (some { status := 201, body := some (.jobj [("id", .jstr "x2")]) })
          (some { status := 200, body := some (.jobj [("id", .jstr "x2")]) })
          (some { status := 500, body := none })).statuses =
          [.passed, .passed, if (500 : Nat) = 404 then .passed else .failed]) :=
  ⟨tc003_nonexistent_id_step_passes_iff_404 "a" "b" "c"
      (some { status := 201, body := some (.jobj [("id", .jstr "x2")]) })
      (some { status := 200, body := some (.jobj [("id", .jstr "x2")]) })
      (.jstr "x2") rfl rfl { status := 404, body := none },
   tc003_nonexistent_id_step_passes_iff_404 "a" "b" "c"
      (some { status := 201, body := some (.jobj [("id", .jstr "x2")]) })
      (some { status := 200, body := some (.jobj [("id", .jstr "x2")]) })
      (.jstr "x2") rfl rfl { status := 200, body := none },
   tc003_nonexistent_id_step_passes_iff_404 "a" "b" "c"
      (some { status := 201, body := some (.jobj [("id", .jstr "x2")]) })
      (some { status := 200, body := some (.jobj [("id", .jstr "x2")]) })
      (.jstr "x2") rfl rfl { status := 500, body := none }⟩

/-! ### The playwright browser scripts -/

/-- The session resources a browser-driving script acquires. -/
inductive BrowserResource where
  | playwrightDriver
  | browserInstance
  | browserContext
  deriving DecidableEq

/-- Which stages of a browser run succeed: starting the playwright driver,
launching the browser, creating the browser context, the page
interactions of the body, and the final `expect(...)` assertion. -/
structure BrowserEnv where
  startOk : Bool
  launchOk : Bool
  newContextOk : Bool
  navigationOk : Bool
  finalAssertionOk : Bool

/-- What a browser run did: which resources were acquired, which were
released (in release order) by the `finally` block, and the result. -/
structure BrowserRun where
  acquired : List BrowserResource
  released : List BrowserResource
  result : Except PyErr Unit

/-- Embedding of the `run_test` skeleton shared by the five
browser-driving scripts (TC002_Manual_RFP_Creation_from_URL,
TC003_Proposal_Generation_Successful..., TC005_Submission_Pipeline...,
TC007_Portal_Scanning..., TC008_Document_Processing...): `pw`, `browser`
and `context` start as `None`; the body acquires the playwright driver,
the browser instance and the browser context in that order, then drives
the page and ends with an `expect(...)` assertion; the `finally` block
closes, in order, each of `context`, `browser` and `pw` that is not
`None`, whether the body completed or raised.  The final assertion of the
TC003 proposal-generation script catches the `expect` failure and
re-raises an `AssertionError` whose message says the response status code
was not 202. -/
def run_test (env : BrowserEnv) : BrowserRun :=
  if env.startOk = false then
    { acquired := [], released := [], result := .error .playwrightErr }
  else if env.launchOk = false then
    { acquired := [.playwrightDriver], released := [.playwrightDriver],
      result := .error .playwrightErr }
  else if env.newContextOk = false then
    { acquired := [.playwrightDriver, .browserInstance],
      released := [.browserInstance, .playwrightDriver],
      result := .error .playwrightErr }
  else if env.navigationOk = false then
    { acquired := [.playwrightDriver, .browserInstance, .browserContext],
      released := [.browserContext, .browserInstance, .playwrightDriver],
      result := .error .playwrightErr }
  else if env.finalAssertionOk = false then
    { acquired := [.playwrightDriver, .browserInstance, .browserContext],
      released := [.browserContext, .browserInstance, .playwrightDriver],
      result := .error (.assertionErr "Response status code was not 202") }
  else
    { acquired := [.playwrightDriver, .browserInstance, .browserContext],
      released := [.browserContext, .browserInstance, .playwrightDriver],
      result := .ok () }

/-- C7: scoped resource release.  On every exit path of the browser
`run_test` skeleton — body completing or raising at any stage — the
`finally` block releases exactly the acquired resources, in the order
context, browser, playwright (the reverse of acquisition order), and the
resources are only ever acquired in the order playwright driver, browser
instance, browser context. -/
theorem run_test_releases_acquired_resources (env : BrowserEnv) :
    (run_test env).released = (run_test env).acquired.reverse ∧
    (run_test env).acquired <+:
      [BrowserResource.playwrightDriver, .browserInstance, .browserContext] := by
  obtain ⟨s, l, c, n, a⟩ := env
  cases s <;> cases l <;> cases c <;> cases n <;> cases a <;>
    exact ⟨rfl, by decide⟩

/-- C2 counterexample: at these concrete inputs, a failed assertion
escapes `test_get_all_rfps_with_pagination_and_filtering` (a 500 status
becomes an uncaught `AssertionError`) and a failed final assertion
escapes the browser `run_test` as an uncaught `AssertionError`: the run's
result is a raised error, not a captured structured result. -/
theorem step_failure_escapes_counterexample :
    (test_get_all_rfps_with_pagination_and_filtering
        (some { status := 500, body := some (.jarr []) })).2 =
      .error (.assertionErr "Request failed")
    ∧ (run_test { startOk := true, launchOk := true, newContextOk := true,
                  navigationOk := true, finalAssertionOk := false }).result =
      .error (.assertionErr "Response status code was not 202") :=
  ⟨rfl, rfl⟩

/-- C2 (amended): a step failure escapes the scenario run as a raised
exception rather than being captured into a structured result: whenever
the TC001 request fails in transport or returns a status other than 200,
the run ends in a raised error, and whenever the final assertion of the
browser `run_test` fails, the run ends in a raised error — though the
`finally` block still releases every acquired browser resource before the
exception propagates. -/
theorem step_failures_escape_as_raised_errors :
    (∀ r : HttpResponse, r.status ≠ 200 →
      ∃ e, (test_get_all_rfps_with_pagination_and_filtering (some r)).2 = .error e)
    ∧ (∃ e, (test_get_all_rfps_with_pagination_and_filtering none).2 = .error e)
    ∧ (∀ env : BrowserEnv, env.finalAssertionOk = false →
      (∃ e, (run_test env).result = .error e) ∧
        (run_test env).released = (run_test env).acquired.reverse) := by
  refine ⟨?_, ⟨_, rfl⟩, ?_⟩
  · intro r hne
    by_cases h4 : 400 ≤ r.status
    · exact ⟨.assertionErr "Request failed",
        by simp [test_get_all_rfps_with_pagination_and_filtering, h4]⟩
    · exact ⟨.assertionErr "Unexpected status code",
        by simp [test_get_all_rfps_with_pagination_and_filtering, h4, hne]⟩
  · intro env ha
    obtain ⟨s, l, c, n, a⟩ := env
    cases ha
    cases s <;> cases l <;> cases c <;> cases n <;> exact ⟨⟨_, rfl⟩, rfl⟩

/-- A browser environment where everything works except the final
assertion. -/
def failingAssertionEnv : BrowserEnv :=
  { startOk := true, launchOk := true, newContextOk := true,
    navigationOk := true, finalAssertionOk := false }

/-- Witness for `step_failures_escape_as_raised_errors` at concrete
inputs. -/
theorem step_failures_escape_as_raised_errors_witness :
    (∃ e, (test_get_all_rfps_with_pagination_and_filtering
        (some { status := 500, body := none })).2 = .error e)
    ∧ ((∃ e, (run_test failingAssertionEnv).result = .error e) ∧
        (run_test failingAssertionEnv).released =
          (run_test failingAssertionEnv).acquired.reverse) :=
  ⟨step_failures_escape_as_raised_errors.1 { status := 500, body := none } (by decide),
   step_failures_escape_as_raised_errors.2.2 failingAssertionEnv rfl⟩

/-! ### TC004_get_documents_for_specific_rfp -/

/-- State produced by the body of `test_get_documents_for_specific_rfp`
before its `finally` block: requests issued, the `rfp_id` variable
(Python `None` as `.jnull` until captured) and the body's result. -/
structure TC004Body where
  reqs : List Request
  rfpId : JsonVal
  result : Except PyErr Unit

/-- The body of `test_get_documents_for_specific_rfp` (TC004): POST
`/api/rfps`, assert 201, parse, assert `"id" in rfp_data`, capture
`rfp_data["id"]`; then GET `/api/rfps/{id}/documents`, assert 200, parse,
assert the body is a list. -/
def tc004_body (createResp docsResp : HttpResult) : TC004Body :=
  let createReq : Request :=
    { method := "POST", url := BASE_URL ++ "/api/rfps", params := [],
      body := some (.jobj
        [("title", .jstr "Test RFP for Document Retrieval"),
         ("description", .jstr "RFP created for testing the documents retrieval endpoint."),
         ("status", .jstr "open"),
         ("portalId", .jstr "test-portal-001")]) }
  match createResp with
  | none => { reqs := [createReq], rfpId := .jnull, result := .error .requestErr }
  | some r =>
    if r.status = 201 then
      match r.body with
      | none => { reqs := [createReq], rfpId := .jnull, result := .error .valueErr }
      | some data =>
        match pyIn "id" data with
        | .error e => { reqs := [createReq], rfpId := .jnull, result := .error e }
        | .ok false =>
          { reqs := [createReq], rfpId := .jnull,
            result := .error (.assertionErr "Created RFP response missing id") }
        | .ok true =>
          match data with
          | .jobj fs =>
            let rfpId := jobjGetD fs "id"
            let docsReq : Request :=
              { method := "GET",
                url := BASE_URL ++ "/api/rfps/" ++ pyStr rfpId ++ "/documents",
                params := [], body := none }
            match docsResp with
            | none =>
              { reqs := [createReq, docsReq], rfpId := rfpId, result := .error .requestErr }
            | some d =>
              if d.status = 200 then
                match d.body with
                | none =>
                  { reqs := [createReq, docsReq], rfpId := rfpId, result := .error .valueErr }
                | some (.jarr _) =>
                  { reqs := [createReq, docsReq], rfpId := rfpId, result := .ok () }
                | some _ =>
                  { reqs := [createReq, docsReq], rfpId := rfpId,
                    result := .error (.assertionErr "Documents response is not a list") }
              else
                { reqs := [createReq, docsReq], rfpId := rfpId,
                  result := .error (.assertionErr "Failed to get documents") }
          | _ => { reqs := [createReq], rfpId := .jnull, result := .error .typeErr }
    else
      { reqs := [createReq], rfpId := .jnull,
        result := .error (.assertionErr "Failed to create RFP") }

/-- Embedding of `test_get_documents_for_specific_rfp` (TC004): run the
body; the `finally` block issues a DELETE of the created RFP when the
captured id is truthy, wrapped in `try ... except Exception: pass`, so the
cleanup response (or transport error) `cleanupResp` is discarded and the
run's result is the body's result. -/
def test_get_documents_for_specific_rfp
    (createResp docsResp cleanupResp : HttpResult) :
    List Request × Except PyErr Unit :=
  let b := tc004_body createResp docsResp
  let cleanupReqs : List Request :=
    if pyTruthy b.rfpId then
      [{ method := "DELETE", url := BASE_URL ++ "/api/rfps/" ++ pyStr b.rfpId,
         params := [], body := none }]
    else []
  (b.reqs ++ cleanupReqs, b.result)

/-! ### TC006_enhanced_ai_powered_proposal_generation -/

/-- State produced by the body of
`test_enhanced_ai_powered_proposal_generation` before its `finally`
block: requests issued, the `rfp_id` and `company_profile_id` variables
(Python `None` as `.jnull`), whether the `else` branch that binds
`new_profile_payload` ran (so that `"new_profile_payload" in locals()` is
true in the `finally` block), and the body's result. -/
structure TC006Body where
  reqs : List Request
  rfpId : JsonVal
  companyId : JsonVal
  elseTaken : Bool
  result : Except PyErr Unit

/-- Step 1 of TC006: POST `/api/rfps`, assert 201, parse,
`rfp_id = rfp_data.get("id")`, assert `rfp_id` truthy.  In every failing
case the `rfp_id` variable is left falsy (unassigned `None`, or a falsy
`.get` result), so the cleanup DELETE of the RFP runs exactly when this
step succeeds. -/
def tc006_createRfp (resp : HttpResult) : Except PyErr JsonVal :=
  match resp with
  | none => .error .requestErr
  | some r =>
    if r.status = 201 then
      match r.body with
      | none => .error .valueErr
      | some data =>
        match pyGet data "id" with
        | .error e => .error e
        | .ok v =>
          if pyTruthy v then .ok v
          else .error (.assertionErr "Created RFP does not have an ID")
    else .error (.assertionErr "Failed to create RFP")

/-- Step 2 of TC006: GET `/api/company`, assert 200, parse. -/
def tc006_getProfiles (resp : HttpResult) : Except PyErr JsonVal :=
  match resp with
  | none => .error .requestErr
  | some r =>
    if r.status = 200 then
      match r.body with
      | none => .error .valueErr
      | some profiles => .ok profiles
    else .error (.assertionErr "Failed to get company profiles")

/-- The else branch of TC006: POST `/api/company` with
`new_profile_payload`, assert 201, parse,
`company_profile_id = company_profile.get("id")`, assert it truthy.  In
every failing case `company_profile_id` is left falsy, so the cleanup
DELETE of the profile runs exactly when this step succeeds. -/
def tc006_createProfile (resp : HttpResult) : Except PyErr JsonVal :=
  match resp with
  | none => .error .requestErr
  | some r =>
    if r.status = 201 then
      match r.body with
      | none => .error .valueErr
      | some profile =>
        match pyGet profile "id" with
        | .error e => .error e
        | .ok v =>
          if pyTruthy v then .ok v
          else .error (.assertionErr "Created company profile does not have an ID")
    else .error (.assertionErr "Failed to create company profile")

/-- The proposal payload of TC006: `{"rfpId": rfp_id}` with
`companyProfileId` added when `company_profile_id` is truthy. -/
def tc006_proposalPayload (rfpId companyId : JsonVal) : JsonVal :=
  if pyTruthy companyId then
    .jobj [("rfpId", rfpId), ("companyProfileId", companyId)]
  else .jobj [("rfpId", rfpId)]

/-- Step 3 of TC006: POST `/api/proposals/enhanced/generate`, assert 200,
parse, `session_id = data.get("sessionId") or data.get("session_id")`,
assert it is a truthy non-empty string. -/
def tc006_generateProposal (resp : HttpResult) : Except PyErr Unit :=
  match resp with
  | none => .error .requestErr
  | some r =>
    if r.status = 200 then
      match r.body with
      | none => .error .valueErr
      | some (.jobj fs) =>
        match (if pyTruthy (jobjGetD fs "sessionId") then jobjGetD fs "sessionId"
               else jobjGetD fs "session_id") with
        | .jstr s =>
          if s.isEmpty then .error (.assertionErr "No valid session ID returned")
          else .ok ()
        | _ => .error (.assertionErr "No valid session ID returned")
      | some _ => .error .attributeErr
    else .error (.assertionErr "Proposal generation request failed")

/-- The fixed requests of TC006. -/
def tc006RfpReq : Request :=
  { method := "POST", url := BASE_URL ++ "/api/rfps", params := [],
    body := some (.jobj
      [("title", .jstr "Test RFP for Proposal Generation"),
       ("description", .jstr "RFP created for testing enhanced proposal generation."),
       ("status", .jstr "open"),
       ("portalId", .jstr "test-portal-1")]) }

/-- The GET `/api/company` request of TC006. -/
def tc006ListReq : Request :=
  { method := "GET", url := BASE_URL ++ "/api/company", params := [], body := none }

/-- The POST `/api/company` request of TC006's else branch. -/
def tc006CreateProfileReq : Request :=
  { method := "POST", url := BASE_URL ++ "/api/company", params := [],
    body := some (.jobj
      [("name", .jstr "Test Company Profile"),
       ("description", .jstr "Profile created for testing enhanced proposal generation.")]) }

/-- The POST `/api/proposals/enhanced/generate` request of TC006. -/
def tc006ProposalReq (rfpId companyId : JsonVal) : Request :=
  { method := "POST", url := BASE_URL ++ "/api/proposals/enhanced/generate",
    params := [], body := some (tc006_proposalPayload rfpId companyId) }

/-- The else branch of TC006's step 2: create a profile, then generate
the proposal.  `elseTaken` is true on every path here since
`new_profile_payload` is bound before the POST. -/
def tc006_elseBranch (rfpId : JsonVal) (createProfileResp propResp : HttpResult) :
    TC006Body :=
  match tc006_createProfile createProfileResp with
  | .error e =>
    { reqs := [tc006CreateProfileReq], rfpId := rfpId, companyId := .jnull,
      elseTaken := true, result := .error e }
  | .ok cid =>
    { reqs := [tc006CreateProfileReq, tc006ProposalReq rfpId cid], rfpId := rfpId,
      companyId := cid, elseTaken := true, result := tc006_generateProposal propResp }

/-- The body of `test_enhanced_ai_powered_proposal_generation` (TC006):
create an RFP, list company profiles, and branch on
`profiles and isinstance(profiles, list) and len(profiles) > 0` — a
non-empty list reuses `profiles[0].get("id")`, anything else creates a
profile — then generate the proposal. -/
def tc006_body (rfpResp listResp createProfileResp propResp : HttpResult) : TC006Body :=
  match tc006_createRfp rfpResp with
  | .error e =>
    { reqs := [tc006RfpReq], rfpId := .jnull, companyId := .jnull,
      elseTaken := false, result := .error e }
  | .ok rfpId =>
    match tc006_getProfiles listResp with
    | .error e =>
      { reqs := [tc006RfpReq, tc006ListReq], rfpId := rfpId, companyId := .jnull,
        elseTaken := false, result := .error e }
    | .ok profiles =>
      match profiles with
      | .jarr (p0 :: _) =>
        match pyGet p0 "id" with
        | .error e =>
          { reqs := [tc006RfpReq, tc006ListReq], rfpId := rfpId, companyId := .jnull,
            elseTaken := false, result := .error e }
        | .ok cid =>
          { reqs := [tc006RfpReq, tc006ListReq, tc006ProposalReq rfpId cid],
            rfpId := rfpId, companyId := cid, elseTaken := false,
            result := tc006_generateProposal propResp }
      | _ =>
        let eb := tc006_elseBranch rfpId createProfileResp propResp
        { reqs := [tc006RfpReq, tc006ListReq] ++ eb.reqs, rfpId := eb.rfpId,
          companyId := eb.companyId, elseTaken := eb.elseTaken, result := eb.result }

/-- Embedding of `test_enhanced_ai_powered_proposal_generation` (TC006):
run the body; the `finally` block DELETEs the created RFP when `rfp_id`
is truthy, and DELETEs the company profile only when
`company_profile_id` is truthy and `"new_profile_payload" in locals()`
(the else branch ran); both DELETEs are wrapped in
`try ... except Exception: pass`, so their responses `cleanupRfpResp` and
`cleanupCompanyResp` are discarded and the run's result is the body's
result. -/
def test_enhanced_ai_powered_proposal_generation
    (rfpResp listResp createProfileResp propResp
     cleanupRfpResp cleanupCompanyResp : HttpResult) :
    List Request × Except PyErr Unit :=
  let b := tc006_body rfpResp listResp createProfileResp propResp
  let delRfp : List Request :=
    if pyTruthy b.rfpId then
      [{ method := "DELETE", url := BASE_URL ++ "/api/rfps/" ++ pyStr b.rfpId,
         params := [], body := none }]
    else []
  let delCompany : List Request :=
    if pyTruthy b.companyId && b.elseTaken then
      [{ method := "DELETE", url := BASE_URL ++ "/api/company/" ++ pyStr b.companyId,
         params := [], body := none }]
    else []
  (b.reqs ++ delRfp ++ delCompany, b.result)

/-- The branch condition of TC006's step 2,
`profiles and isinstance(profiles, list) and len(profiles) > 0`: a truthy
list of positive length, i.e. a non-empty JSON list. -/
def tc006_hasExistingProfile : JsonVal → Bool
  | .jarr xs => !xs.isEmpty
  | _ => false

theorem pyTruthy_jnull : pyTruthy .jnull = false := rfl

/-- Whether a request is the cleanup DELETE of a company profile. -/
def isCompanyDelete (req : Request) : Bool :=
  req.method == "DELETE" &&
    charPrefixOf (BASE_URL ++ "/api/company/").data req.url.data

theorem isCompanyDelete_tc006RfpReq : isCompanyDelete tc006RfpReq = false := rfl

theorem isCompanyDelete_tc006ListReq : isCompanyDelete tc006ListReq = false := rfl

theorem isCompanyDelete_tc006CreateProfileReq :
    isCompanyDelete tc006CreateProfileReq = false := rfl

theorem isCompanyDelete_proposalReq (a b : JsonVal) :
    isCompanyDelete (tc006ProposalReq a b) = false := rfl

theorem isCompanyDelete_delRfpReq (v : JsonVal) :
    isCompanyDelete { method := "DELETE", url := BASE_URL ++ "/api/rfps/" ++ pyStr v,
                      params := [], body := none } = false := rfl

theorem isCompanyDelete_delCompanyReq (v : JsonVal) :
    isCompanyDelete { method := "DELETE", url := BASE_URL ++ "/api/company/" ++ pyStr v,
                      params := [], body := none } = true := rfl

theorem tc006_createRfp_ok_truthy (resp : HttpResult) (v : JsonVal)
    (h : tc006_createRfp resp = .ok v) : pyTruthy v = true := by
  cases resp with
  | none => simp [tc006_createRfp] at h
  | some r =>
    simp only [tc006_createRfp] at h
    by_cases h2 : r.status = 201
    · rw [if_pos h2] at h
      cases hb : r.body with
      | none => rw [hb] at h; cases h
      | some data =>
        rw [hb] at h
        dsimp only at h
        cases hg : pyGet data "id" with
        | error e => rw [hg] at h; cases h
        | ok w =>
          rw [hg] at h
          dsimp only at h
          by_cases ht : pyTruthy w
          · rw [if_pos ht] at h; cases h; exact ht
          · rw [if_neg ht] at h; cases h
    · rw [if_neg h2] at h; cases h

theorem tc006_createProfile_ok_char (resp : HttpResult) (v : JsonVal)
    (h : tc006_createProfile resp = .ok v) :
    ∃ cr fs, resp = some cr ∧ cr.status = 201 ∧ cr.body = some (.jobj fs) ∧
      jobjGetD fs "id" = v ∧ pyTruthy v = true := by
  cases resp with
  | none => simp [tc006_createProfile] at h
  | some r =>
    simp only [tc006_createProfile] at h
    by_cases h2 : r.status = 201
    · rw [if_pos h2] at h
      cases hb : r.body with
      | none => rw [hb] at h; cases h
      | some data =>
        rw [hb] at h
        dsimp only at h
        cases data with
        | jobj fs =>
          simp only [pyGet] at h
          by_cases ht : pyTruthy (jobjGetD fs "id")
          · rw [if_pos ht] at h
            cases h
            exact ⟨r, fs, rfl, h2, hb, rfl, ht⟩
          · rw [if_neg ht] at h; cases h
        | jnull => simp [pyGet] at h
        | jbool x => simp [pyGet] at h
        | jnum x => simp [pyGet] at h
        | jstr x => simp [pyGet] at h
        | jarr xs => simp [pyGet] at h
    · rw [if_neg h2] at h; cases h

theorem tc006_getProfiles_ok_iff (resp : HttpResult) (profiles : JsonVal) :
    tc006_getProfiles resp = .ok profiles ↔
      ∃ r, resp = some r ∧ r.status = 200 ∧ r.body = some profiles := by
  cases resp with
  | none => simp [tc006_getProfiles]
  | some r =>
    by_cases h2 : r.status = 200
    · cases hb : r.body with
      | none => simp [tc006_getProfiles, h2, hb]
      | some data => simp [tc006_getProfiles, h2, hb]
    · simp [tc006_getProfiles, h2]

theorem tc006_company_delete_char (rfpResp listResp cpr pr c1 c2 : HttpResult) :
    (∃ req ∈ (test_enhanced_ai_powered_proposal_generation
        rfpResp listResp cpr pr c1 c2).1, isCompanyDelete req = true) ↔
      ((∃ v, tc006_createRfp rfpResp = .ok v) ∧
       (∃ profiles, tc006_getProfiles listResp = .ok profiles ∧
         tc006_hasExistingProfile profiles = false) ∧
       (∃ cid, tc006_createProfile cpr = .ok cid)) := by
  rw [test_enhanced_ai_powered_proposal_generation]
  rcases hcr : tc006_createRfp rfpResp with e | rfpId
  · simp [tc006_body, hcr, pyTruthy_jnull, isCompanyDelete_tc006RfpReq]
  · have htr := tc006_createRfp_ok_truthy rfpResp rfpId hcr
    rcases hgp : tc006_getProfiles listResp with e | profiles
    · simp [tc006_body, hcr, hgp, htr, pyTruthy_jnull, isCompanyDelete_tc006RfpReq,
        isCompanyDelete_tc006ListReq, isCompanyDelete_delRfpReq]
    · rcases profiles with _ | b | n | s | xs | ofs
      case jarr =>
        rcases xs with _ | ⟨p0, rest⟩
        · rcases hcp : tc006_createProfile cpr with e | cid
          · simp [tc006_body, hcr, hgp, hcp, tc006_elseBranch, htr, pyTruthy_jnull,
              tc006_hasExistingProfile, isCompanyDelete_tc006RfpReq,
              isCompanyDelete_tc006ListReq, isCompanyDelete_tc006CreateProfileReq,
              isCompanyDelete_delRfpReq]
          · obtain ⟨cr, fs, -, -, -, -, htc⟩ := tc006_createProfile_ok_char cpr cid hcp
            simp [tc006_body, hcr, hgp, hcp, tc006_elseBranch, htr, htc, pyTruthy_jnull,
              tc006_hasExistingProfile, isCompanyDelete_tc006RfpReq,
              isCompanyDelete_tc006ListReq, isCompanyDelete_tc006CreateProfileReq,
              isCompanyDelete_proposalReq, isCompanyDelete_delRfpReq,
              isCompanyDelete_delCompanyReq]
        · rcases hpg : pyGet p0 "id" with e | cid
          · simp [tc006_body, hcr, hgp, hpg, htr, pyTruthy_jnull, tc006_hasExistingProfile,
              isCompanyDelete_tc006RfpReq, isCompanyDelete_tc006ListReq,
              isCompanyDelete_delRfpReq]
          · simp [tc006_body, hcr, hgp, hpg, htr, pyTruthy_jnull, tc006_hasExistingProfile,
              isCompanyDelete_tc006RfpReq, isCompanyDelete_tc006ListReq,
              isCompanyDelete_proposalReq, isCompanyDelete_delRfpReq]
      all_goals
        rcases hcp : tc006_createProfile cpr with e | cid
        · simp [tc006_body, hcr, hgp, hcp, tc006_elseBranch, htr, pyTruthy_jnull,
            tc006_hasExistingProfile, isCompanyDelete_tc006RfpReq,
            isCompanyDelete_tc006ListReq, isCompanyDelete_tc006CreateProfileReq,
            isCompanyDelete_delRfpReq]
        · obtain ⟨cr, fs, -, -, -, -, htc⟩ := tc006_createProfile_ok_char cpr cid hcp
          simp [tc006_body, hcr, hgp, hcp, tc006_elseBranch, htr, htc, pyTruthy_jnull,
            tc006_hasExistingProfile, isCompanyDelete_tc006RfpReq,
            isCompanyDelete_tc006ListReq, isCompanyDelete_tc006CreateProfileReq,
            isCompanyDelete_proposalReq, isCompanyDelete_delRfpReq,
            isCompanyDelete_delCompanyReq]

/-- C10: frame property of TC006: a pre-existing company profile is never
deleted.  When GET `/api/company` returns a non-empty list of profiles, no
DELETE against `/api/company/...` is ever issued; and whenever such a
DELETE is issued on a run whose profile list is a JSON list, that list was
empty and the test itself had created a profile (the create POST returned
201 with a truthy `id`). -/
theorem tc006_preexisting_profile_never_deleted :
    (∀ (rfpResp : HttpResult) (r : HttpResponse) (ps : List JsonVal)
        (cpr pr c1 c2 : HttpResult),
      r.body = some (.jarr ps) → ps ≠ [] →
      ∀ req ∈ (test_enhanced_ai_powered_proposal_generation
          rfpResp (some r) cpr pr c1 c2).1, isCompanyDelete req = false)
    ∧ (∀ (rfpResp : HttpResult) (r : HttpResponse) (ps : List JsonVal)
        (cpr pr c1 c2 : HttpResult),
      r.body = some (.jarr ps) →
      (∃ req ∈ (test_enhanced_ai_powered_proposal_generation
          rfpResp (some r) cpr pr c1 c2).1, isCompanyDelete req = true) →
      ps = [] ∧ ∃ cr fs, cpr = some cr ∧ cr.status = 201 ∧
        cr.body = some (.jobj fs) ∧ pyTruthy (jobjGetD fs "id") = true) := by
  constructor
  · intro rfpResp r ps cpr pr c1 c2 hb hne req hreq
    rw [← Bool.not_eq_true]
    intro hdel
    have hex := (tc006_company_delete_char rfpResp (some r) cpr pr c1 c2).mp
      ⟨req, hreq, hdel⟩
    obtain ⟨-, ⟨profiles, hok, hfalse⟩, -⟩ := hex
    obtain ⟨r', hr', -, hbody⟩ := (tc006_getProfiles_ok_iff _ _).mp hok
    cases hr'
    rw [hb] at hbody
    cases hbody
    simp [tc006_hasExistingProfile] at hfalse
    exact hne hfalse
  · intro rfpResp r ps cpr pr c1 c2 hb hex
    rw [tc006_company_delete_char] at hex
    obtain ⟨-, ⟨profiles, hok, hfalse⟩, cid, hcp⟩ := hex
    obtain ⟨r', hr', -, hbody⟩ := (tc006_getProfiles_ok_iff _ _).mp hok
    cases hr'
    rw [hb] at hbody
    cases hbody
    simp [tc006_hasExistingProfile] at hfalse
    obtain ⟨cr, fs, hcpr, h201, hbody2, hid, htc⟩ :=
      tc006_createProfile_ok_char cpr cid hcp
    exact ⟨hfalse, cr, fs, hcpr, h201, hbody2, by rw [hid]; exact htc⟩

/-- Witness for `tc006_preexisting_profile_never_deleted` at concrete
inputs: with an existing profile in the list, even the first request of
the run is not a company DELETE; with an empty profile list and a
successful profile creation, the issued company DELETE implies the list
was empty and the profile was created by the test. -/
theorem tc006_preexisting_profile_never_deleted_witness :
    isCompanyDelete tc006RfpReq = false
    ∧ (([] : List JsonVal) = [] ∧
        ∃ cr fs, (some { status := 201, body := some (.jobj [("id", .jstr "c1")]) } :
            HttpResult) = some cr ∧
          cr.status = 201 ∧ cr.body = some (.jobj fs) ∧
          pyTruthy (jobjGetD fs "id") = true) := by
  constructor
  · have htr : (test_enhanced_ai_powered_proposal_generation
        (some { status := 201, body := some (.jobj [("id", .jstr "r1")]) })
        (some { status := 200, body := some (.jarr [.jobj [("id", .jstr "c1")]]) })
        none none none none).1 =
          [tc006RfpReq, tc006ListReq, tc006ProposalReq (.jstr "r1") (.jstr "c1"),
           { method := "DELETE", url := BASE_URL ++ "/api/rfps/" ++ pyStr (.jstr "r1"),
             params := [], body := none }] := rfl
    exact tc006_preexisting_profile_never_deleted.1
      (some { status := 201, body := some (.jobj [("id", .jstr "r1")]) })
      { status := 200, body := some (.jarr [.jobj [("id", .jstr "c1")]]) }
      [.jobj [("id", .jstr "c1")]]
      none none none none rfl (by simp) tc006RfpReq (by rw [htr]; simp)
  · have htr : (test_enhanced_ai_powered_proposal_generation
        (some { status := 201, body := some (.jobj [("id", .jstr "r1")]) })
        (some { status := 200, body := some (.jarr []) })
        (some { status := 201, body := some (.jobj [("id", .jstr "c1")]) })
        (some { status := 200, body := some (.jobj [("sessionId", .jstr "s1")]) })
        none none).1 =
          [tc006RfpReq, tc006ListReq, tc006CreateProfileReq,
           tc006ProposalReq (.jstr "r1") (.jstr "c1"),
           { method := "DELETE", url := BASE_URL ++ "/api/rfps/" ++ pyStr (.jstr "r1"),
             params := [], body := none },
           { method := "DELETE", url := BASE_URL ++ "/api/company/" ++ pyStr (.jstr "c1"),
             params := [], body := none }] := rfl
    exact tc006_preexisting_profile_never_deleted.2
      (some { status := 201, body := some (.jobj [("id", .jstr "r1")]) })
      { status := 200, body := some (.jarr []) } []
      (some { status := 201, body := some (.jobj [("id", .jstr "c1")]) })
      (some { status := 200, body := some (.jobj [("sessionId", .jstr "s1")]) })
      none none rfl
      ⟨{ method := "DELETE", url := BASE_URL ++ "/api/company/" ++ pyStr (.jstr "c1"),
         params := [], body := none }, by rw [htr]; simp, rfl⟩

/-- C8: cleanup failures never change a test's outcome.  The results of
TC004 and TC006 do not depend on the responses (or raised transport
errors) of their cleanup DELETE requests — those are wrapped in
`try ... except Exception: pass` — and each test's result is exactly its
main body's result. -/
theorem cleanup_never_changes_outcome :
    (∀ (createResp docsResp c c' : HttpResult),
      (test_get_documents_for_specific_rfp createResp docsResp c).2 =
        (test_get_documents_for_specific_rfp createResp docsResp c').2)
    ∧ (∀ (rfpResp listResp cpr pr c1 c2 c1' c2' : HttpResult),
      (test_enhanced_ai_powered_proposal_generation rfpResp listResp cpr pr c1 c2).2 =
        (test_enhanced_ai_powered_proposal_generation rfpResp listResp cpr pr c1' c2').2)
    ∧ (∀ (createResp docsResp c : HttpResult),
      (test_get_documents_for_specific_rfp createResp docsResp c).2 =
        (tc004_body createResp docsResp).result)
    ∧ (∀ (rfpResp listResp cpr pr c1 c2 : HttpResult),
      (test_enhanced_ai_powered_proposal_generation rfpResp listResp cpr pr c1 c2).2 =
        (tc006_body rfpResp listResp cpr pr).result) :=
  ⟨fun _ _ _ _ => rfl, fun _ _ _ _ _ _ _ _ => rfl,
   fun _ _ _ => rfl, fun _ _ _ _ _ _ => rfl⟩

/-- The success status accepted for POST `/api/proposals/enhanced/generate`
by `test_enhanced_ai_powered_proposal_generation` (TC006), which asserts
`proposal_response.status_code == 200`. -/
def tc006ExpectedProposalStatus (s : Nat) : Bool := s == 200

/-- The success status expected for the same operation by the browser
script `run_test` of TC003_Proposal_Generation_Successful...: its final
assertion failure message states that the response status code was
expected to be 202. -/
def tc003BrowserExpectedProposalStatus (s : Nat) : Bool := s == 202

/-- C6: the two scripts disagree on the expected success status of the
one operation POST `/api/proposals/enhanced/generate`: TC006 accepts
exactly 200 while the TC003 browser script expects 202, so the two
expected-status predicates are not equal; accordingly a 202 response
fails TC006's proposal step while a 200 response with a session id passes
it. -/
theorem proposal_generation_expected_status_inconsistent :
    tc006ExpectedProposalStatus ≠ tc003BrowserExpectedProposalStatus
    ∧ tc006ExpectedProposalStatus 200 = true
    ∧ tc003BrowserExpectedProposalStatus 200 = false
    ∧ tc006ExpectedProposalStatus 202 = false
    ∧ tc003BrowserExpectedProposalStatus 202 = true
    ∧ (∀ r : HttpResponse, tc006_generateProposal (some r) = .ok () → r.status = 200)
    ∧ tc006_generateProposal
        (some { status := 202, body := some (.jobj [("sessionId", .jstr "s1")]) }) ≠
        .ok ()
    ∧ tc006_generateProposal
        (some { status := 200, body := some (.jobj [("sessionId", .jstr "s1")]) }) =
        .ok () := by
  refine ⟨?_, rfl, rfl, rfl, rfl, ?_, by decide, by decide⟩
  · intro h
    have h200 := congrFun h 200
    simp [tc006ExpectedProposalStatus, tc003BrowserExpectedProposalStatus] at h200
  · intro r h
    by_cases h2 : r.status = 200
    · exact h2
    · simp [tc006_generateProposal, h2] at h

/-- Witness for `proposal_generation_expected_status_inconsistent` at a
concrete input. -/
theorem proposal_generation_expected_status_inconsistent_witness :
    ({ status := 200, body := some (.jobj [("sessionId", .jstr "s1")]) }
      : HttpResponse).status = 200 :=
  proposal_generation_expected_status_inconsistent.2.2.2.2.2.1
    { status := 200, body := some (.jobj [("sessionId", .jstr "s1")]) } (by decide)

end RfpTests
